import Mathlib

/-!
Shallow embedding of `src/function_app.py` (truck-location Azure Functions app):
the haversine distance, the `/uploadTruckData` ingestion endpoint, the
`/compareLocations` comparison endpoint, and the SQL-trigger change handler
`calculate_truck_data`, together with theorems settling the spec claims.

Modelling conventions:
* Python floats are modelled as real numbers (`ℝ`) where trigonometry is
  involved, and request-level numeric values as rationals (`ℚ`) so that
  parsing is decidable; a rational is coerced to `ℝ` before the distance
  computation.
* JSON values reaching a handler are `Option JVal` (`none` = field absent or
  JSON null, which `dict.get` both report as Python `None`).  Numeric strings
  such as `"5"` (which Python `int`/`float` would also accept) are not
  modelled; no claim depends on them.
* External effects are explicit parameters: `isoOk` is the behaviour of
  `datetime.fromisoformat` (success/failure on a given string), `dbOk` is
  whether a database write succeeds, `callOk` is whether an outbound HTTP
  comparison call succeeds.  Each handler returns its HTTP response together
  with the trace of database inserts it issued.
-/

namespace FunctionApp

open Real

/-- `math.radians`: convert degrees to radians. -/
noncomputable def mathRadians (x : ℝ) : ℝ := x * (Real.pi / 180)

/-- `math.atan2 y x`: the two-argument arctangent, following the C/Python
convention (`atan2 0 0 = 0`). -/
noncomputable def atan2 (y x : ℝ) : ℝ :=
  if 0 < x then Real.arctan (y / x)
  else if x < 0 then
    if 0 ≤ y then Real.arctan (y / x) + Real.pi
    else Real.arctan (y / x) - Real.pi
  else
    if 0 < y then Real.pi / 2
    else if y < 0 then -(Real.pi / 2)
    else 0

/-- `haversine(lat1, lon1, lat2, lon2)` from `src/function_app.py`:
great-circle distance in kilometers between two points given in degrees,
with Earth radius `R = 6371.0` km. -/
noncomputable def haversine (lat1 lon1 lat2 lon2 : ℝ) : ℝ :=
  let R : ℝ := 6371.0
  let dlat := mathRadians (lat2 - lat1)
  let dlon := mathRadians (lon2 - lon1)
  let a := Real.sin (dlat / 2) ^ 2 +
      Real.cos (mathRadians lat1) * Real.cos (mathRadians lat2) *
      Real.sin (dlon / 2) ^ 2
  let c := 2 * atan2 (Real.sqrt a) (Real.sqrt (1 - a))
  R * c

/-- The haversine contract exactly as the spec words it (section 4.1):
`a = sin²(Δlat/2) + cos(lat1)·cos(lat2)·sin²(Δlon/2)`,
`distance = 2·R·atan2(√a, √(1-a))`, all angles converted degrees→radians
before use.  Stated separately from `haversine` (which is translated from
the code) so the two can be compared. -/
noncomputable def haversineSpecFormula (lat1 lon1 lat2 lon2 : ℝ) : ℝ :=
  let a := Real.sin (mathRadians (lat2 - lat1) / 2) ^ 2 +
      Real.cos (mathRadians lat1) * Real.cos (mathRadians lat2) *
      Real.sin (mathRadians (lon2 - lon1) / 2) ^ 2
  2 * 6371.0 * atan2 (Real.sqrt a) (Real.sqrt (1 - a))

/-- An HTTP response: status code and body text. -/
structure HttpResponse where
  status : Nat
  body : String
deriving DecidableEq, Repr

/-- A JSON value as it reaches a handler after `req.get_json()`. -/
inductive JVal where
  | jint : ℤ → JVal
  | jnum : ℚ → JVal
  | jstr : String → JVal
deriving DecidableEq, Repr

/-- Python `int(q)` on a float: truncation toward zero. -/
def ratTrunc (q : ℚ) : ℤ := if 0 ≤ q then ⌊q⌋ else ⌈q⌉

/-- Python `int(v)` applied to `req_body.get(k)`: succeeds on an integer, or
on a float by truncation; raises `TypeError` on `None` (absent field) and is
not modelled on strings. -/
def pyInt : Option JVal → Option ℤ
  | some (.jint n) => some n
  | some (.jnum q) => some (ratTrunc q)
  | _ => none

/-- Python `float(v)` applied to `req_body.get(k)`: succeeds on an integer or
float; raises `TypeError` on `None` (absent field) and is not modelled on
strings. -/
def pyFloat : Option JVal → Option ℚ
  | some (.jint n) => some (n : ℚ)
  | some (.jnum q) => some q
  | _ => none

/-- `datetime.fromisoformat(v)` used as a validator: the field must be a
string and `isoOk` (the external library's accept/reject behaviour) must
accept it; on `None` or a non-string it raises `TypeError`. -/
def pyTimestamp (isoOk : String → Bool) : Option JVal → Option String
  | some (.jstr s) => if isoOk s then some s else none
  | _ => none

/-- The JSON body of a `/uploadTruckData` request: each field may be absent. -/
structure UploadReq where
  truck_id : Option JVal
  latitude : Option JVal
  longitude : Option JVal
  timestamp : Option JVal
deriving DecidableEq, Repr

/-- The four parsed values of a successful `upload_truck_data` try-block. -/
structure UploadParsed where
  truck_id : ℤ
  latitude : ℚ
  longitude : ℚ
  timestamp : String
deriving DecidableEq, Repr

/-- The try-block of `upload_truck_data`: parse `truck_id` as int, `latitude`
and `longitude` as float, and validate `timestamp` with `fromisoformat`;
any `ValueError`/`TypeError` makes the whole block fail (`none`). -/
def parseUpload (isoOk : String → Bool) (r : UploadReq) : Option UploadParsed := do
  let tid ← pyInt r.truck_id
  let lat ← pyFloat r.latitude
  let lon ← pyFloat r.longitude
  let ts ← pyTimestamp isoOk r.timestamp
  pure ⟨tid, lat, lon, ts⟩

/-- Python `all([truck_id, latitude, longitude, timestamp])`: every parsed
value is truthy (nonzero number, nonempty string). -/
def allTruthy (p : UploadParsed) : Bool :=
  (p.truck_id != 0) && (p.latitude != 0) && (p.longitude != 0) && (p.timestamp != "")

/-- A database write issued by the ingestion endpoint. -/
inductive DbOp where
  | insertLocation : ℤ → ℚ → ℚ → String → DbOp
deriving DecidableEq, Repr

/-- `upload_truck_data` from `src/function_app.py`.  `isoOk` models
`datetime.fromisoformat`, `dbOk` whether the `INSERT INTO TruckLocations`
succeeds.  Returns the HTTP response and the list of database inserts issued
(a failed insert is still issued: the connection is opened and the statement
executed before `pyodbc.Error` is raised). -/
def upload_truck_data (isoOk : String → Bool) (dbOk : Bool) (req : UploadReq) :
    HttpResponse × List DbOp :=
  match parseUpload isoOk req with
  | none => (⟨400, "Invalid data format. Please check your input."⟩, [])
  | some p =>
    if allTruthy p then
      if dbOk then
        (⟨200, "Data for TruckID " ++ toString p.truck_id ++ " inserted successfully."⟩,
          [.insertLocation p.truck_id p.latitude p.longitude p.timestamp])
      else
        (⟨500, "Database error occurred. Please try again later."⟩,
          [.insertLocation p.truck_id p.latitude p.longitude p.timestamp])
    else
      (⟨400, "Missing one or more required parameters."⟩, [])

/-- The JSON body of a `/compareLocations` request: each field may be absent. -/
structure CompareReq where
  truck_id : Option JVal
  warehouse_id : Option JVal
  truck_latitude : Option JVal
  truck_longitude : Option JVal
  warehouse_latitude : Option JVal
  warehouse_longitude : Option JVal
deriving DecidableEq, Repr

/-- The six parsed values of a successful `compare_locations` try-block; also
the payload shape sent by `compare_truck_warehouse_location`. -/
structure ComparePayload where
  truck_id : ℤ
  warehouse_id : ℤ
  truck_latitude : ℚ
  truck_longitude : ℚ
  warehouse_latitude : ℚ
  warehouse_longitude : ℚ
deriving DecidableEq, Repr

/-- The parsing prefix of `compare_locations`: two ints and four floats; any
`ValueError`/`TypeError` makes the whole block fail (`none`). -/
def parseCompare (r : CompareReq) : Option ComparePayload := do
  let tid ← pyInt r.truck_id
  let wid ← pyInt r.warehouse_id
  let tlat ← pyFloat r.truck_latitude
  let tlon ← pyFloat r.truck_longitude
  let wlat ← pyFloat r.warehouse_latitude
  let wlon ← pyFloat r.warehouse_longitude
  pure ⟨tid, wid, tlat, tlon, wlat, wlon⟩

/-- A row inserted into the `MessageQueue` alerts table. -/
structure AlertRow where
  truck_id : ℤ
  warehouse_id : ℤ
  distance : ℝ

/-- `insert_message_queue` from `src/function_app.py`: issues the
`INSERT INTO MessageQueue` statement and returns normally whether or not the
database accepts it (`pyodbc.Error` is caught and only logged).  The trace
records the issued row together with whether the write succeeded (`dbOk`). -/
def insert_message_queue (dbOk : Bool) (tid wid : ℤ) (d : ℝ) :
    List (AlertRow × Bool) :=
  [(⟨tid, wid, d⟩, dbOk)]

/-- `compare_locations` from `src/function_app.py`: parse the six fields,
compute the haversine distance, insert an alert when the distance is within
the `0.5` km threshold, and acknowledge.  Returns the HTTP response and the
trace of `MessageQueue` inserts issued. -/
noncomputable def compare_locations (dbOk : Bool) (req : CompareReq) :
    HttpResponse × List (AlertRow × Bool) :=
  match parseCompare req with
  | none => (⟨400, "Invalid data format. Please check your input."⟩, [])
  | some p =>
    let distance := haversine p.truck_latitude p.truck_longitude
        p.warehouse_latitude p.warehouse_longitude
    let writes :=
      if distance ≤ 0.5 then insert_message_queue dbOk p.truck_id p.warehouse_id distance
      else []
    (⟨200, "Comparison for truck " ++ toString p.truck_id ++ " and warehouse " ++
        toString p.warehouse_id ++ " successful."⟩, writes)

/-- The `Item` snapshot of a `TruckLocations` change record. -/
structure TruckItem where
  TruckID : ℤ
  Latitude : ℚ
  Longitude : ℚ
deriving DecidableEq, Repr

/-- One change record of the SQL-trigger batch: operation code (`0` is
INSERT) and the row snapshot. -/
structure ChangeEvent where
  Operation : ℤ
  Item : TruckItem
deriving DecidableEq, Repr

/-- One row of the `Warehouses` table, as the tuple
`(WarehouseID, Name, Latitude, Longitude)` selected by `fetch_warehouses`. -/
structure WarehouseRow where
  id : ℤ
  name : String
  latitude : ℚ
  longitude : ℚ
deriving DecidableEq, Repr

/-- `fetch_warehouses` from `src/function_app.py`: return all `Warehouses`
rows; on a `pyodbc.Error` (modelled by the `Except.error` case of the query
result) log and return the empty list. -/
def fetch_warehouses (queryResult : Except String (List WarehouseRow)) :
    List WarehouseRow :=
  match queryResult with
  | .ok rows => rows
  | .error _ => []

/-- The payload `calculate_truck_data` builds for one (truck, warehouse)
pair, with `warehouse_id = warehouse[0]`, `warehouse_latitude = warehouse[2]`,
`warehouse_longitude = warehouse[3]`. -/
def truckWarehousePayload (truck : ChangeEvent) (w : WarehouseRow) : ComparePayload :=
  ⟨truck.Item.TruckID, w.id, truck.Item.Latitude, truck.Item.Longitude,
    w.latitude, w.longitude⟩

/-- `compare_truck_warehouse_location` from `src/function_app.py`: POST the
payload to the comparison endpoint; every failure (`RequestException`,
non-200 status) is logged and swallowed, so the call always returns normally.
`callOk` models whether the outbound call succeeds; the result records the
attempted payload and that outcome. -/
def compare_truck_warehouse_location (callOk : ComparePayload → Bool)
    (payload : ComparePayload) : ComparePayload × Bool :=
  (payload, callOk payload)

/-- `calculate_truck_data` from `src/function_app.py`: for each change record
whose `Operation` is `0` (INSERT), for each warehouse row, build the payload
and invoke the comparison call.  Returns, in order, every attempted
comparison call with its outcome. -/
def calculate_truck_data (callOk : ComparePayload → Bool)
    (queryResult : Except String (List WarehouseRow))
    (trucks : List ChangeEvent) : List (ComparePayload × Bool) :=
  let warehouses := fetch_warehouses queryResult
  trucks.flatMap fun truck =>
    if truck.Operation = 0 then
      warehouses.map fun w =>
        compare_truck_warehouse_location callOk (truckWarehousePayload truck w)
    else []

/-- A concrete well-formed comparison request, used to instantiate theorems. -/
def compareReqEx : CompareReq :=
  ⟨some (.jint 7), some (.jint 3), some (.jnum 51.5), some (.jnum 0),
    some (.jnum 51.5), some (.jnum 0)⟩

/-- The parsed form of `compareReqEx`. -/
def comparePayloadEx : ComparePayload := ⟨7, 3, 51.5, 0, 51.5, 0⟩

/-- A `fromisoformat` behaviour accepting exactly the timestamp used in the
concrete examples below. -/
def isoOkEx : String → Bool := fun s => s == "2024-11-18T10:00:00"

/-- A concrete well-formed ingestion request. -/
def uploadReqEx : UploadReq :=
  ⟨some (.jint 1), some (.jnum 51.5), some (.jnum (-0.12)),
    some (.jstr "2024-11-18T10:00:00")⟩

/-- The parsed form of `uploadReqEx`. -/
def uploadParsedEx : UploadParsed := ⟨1, 51.5, -0.12, "2024-11-18T10:00:00"⟩

/-- A concrete ingestion request whose fields all parse but whose
`truck_id` is the falsy value `0`. -/
def uploadReqZeroId : UploadReq :=
  ⟨some (.jint 0), some (.jnum 51.5), some (.jnum (-0.12)),
    some (.jstr "2024-11-18T10:00:00")⟩

/-- The parsed form of `uploadReqZeroId`. -/
def uploadParsedZeroId : UploadParsed := ⟨0, 51.5, -0.12, "2024-11-18T10:00:00"⟩

/-- A concrete ingestion request with the `longitude` field missing. -/
def uploadReqMissingLon : UploadReq :=
  ⟨some (.jint 1), some (.jnum 51.5), none, some (.jstr "2024-11-18T10:00:00")⟩

/-! ## Theorems -/

/-- Squares of sines of opposite half-angle differences agree. -/
lemma sin_sq_half_swap (x y : ℝ) :
    Real.sin (mathRadians (x - y) / 2) ^ 2 = Real.sin (mathRadians (y - x) / 2) ^ 2 := by
  have h : mathRadians (x - y) / 2 = -(mathRadians (y - x) / 2) := by
    simp only [mathRadians]; ring
  rw [h, Real.sin_neg]
  ring

/-- C2: `haversine` computes `2 * 6371.0 * atan2(√a, √(1-a))` with
`a = sin²(Δlat/2) + cos(lat1)·cos(lat2)·sin²(Δlon/2)`, all angles converted
from degrees to radians first. -/
theorem haversine_matches_spec_formula (lat1 lon1 lat2 lon2 : ℝ) :
    haversine lat1 lon1 lat2 lon2 = haversineSpecFormula lat1 lon1 lat2 lon2 := by
  simp only [haversine, haversineSpecFormula]
  ring

/-- C4: the haversine distance is symmetric in its two points. -/
theorem haversine_symm (lat1 lon1 lat2 lon2 : ℝ) :
    haversine lat1 lon1 lat2 lon2 = haversine lat2 lon2 lat1 lon1 := by
  simp only [haversine]
  rw [sin_sq_half_swap lat2 lat1, sin_sq_half_swap lon2 lon1,
    mul_comm (Real.cos (mathRadians lat1)) (Real.cos (mathRadians lat2))]

/-- C5: at coincident points the haversine distance is exactly `0`. -/
theorem haversine_self_eq_zero (lat lon : ℝ) : haversine lat lon lat lon = 0 := by
  simp only [haversine, mathRadians, sub_self, zero_mul, zero_div, Real.sin_zero]
  norm_num [atan2, Real.sqrt_zero, Real.sqrt_one, Real.arctan_zero]

/-- C1: on a successfully parsed comparison request, the alert row
(truck id, warehouse id, distance) is issued exactly when the haversine
distance is at most `0.5` km (inclusive boundary), and otherwise the trace
of issued alert rows is empty. -/
theorem compare_alert_iff_within_threshold (dbOk : Bool) (req : CompareReq)
    (p : ComparePayload) (h : parseCompare req = some p) :
    (compare_locations dbOk req).2.map Prod.fst =
      (if haversine p.truck_latitude p.truck_longitude
          p.warehouse_latitude p.warehouse_longitude ≤ 0.5 then
        [⟨p.truck_id, p.warehouse_id,
          haversine p.truck_latitude p.truck_longitude
            p.warehouse_latitude p.warehouse_longitude⟩]
      else []) ∧
    ((compare_locations dbOk req).2 ≠ [] ↔
      haversine p.truck_latitude p.truck_longitude
        p.warehouse_latitude p.warehouse_longitude ≤ 0.5) := by
  simp only [compare_locations, h, insert_message_queue]
  constructor
  · split <;> simp
  · split <;> simp_all

/-- Concrete instance of `compare_alert_iff_within_threshold`. -/
theorem compare_alert_iff_within_threshold_witness :
    parseCompare compareReqEx = some comparePayloadEx ∧
    ((compare_locations true compareReqEx).2.map Prod.fst =
      (if haversine comparePayloadEx.truck_latitude comparePayloadEx.truck_longitude
          comparePayloadEx.warehouse_latitude comparePayloadEx.warehouse_longitude ≤ 0.5 then
        [⟨comparePayloadEx.truck_id, comparePayloadEx.warehouse_id,
          haversine comparePayloadEx.truck_latitude comparePayloadEx.truck_longitude
            comparePayloadEx.warehouse_latitude comparePayloadEx.warehouse_longitude⟩]
      else []) ∧
      ((compare_locations true compareReqEx).2 ≠ [] ↔
        haversine comparePayloadEx.truck_latitude comparePayloadEx.truck_longitude
          comparePayloadEx.warehouse_latitude comparePayloadEx.warehouse_longitude ≤ 0.5)) :=
  ⟨rfl, compare_alert_iff_within_threshold true compareReqEx comparePayloadEx rfl⟩

/-- C6: on a successfully parsed comparison request the endpoint returns a
`200` acknowledgment naming the truck and warehouse ids, for every outcome
`dbOk` of the alert-write side effect. -/
theorem compare_returns_200_unconditionally (dbOk : Bool) (req : CompareReq)
    (p : ComparePayload) (h : parseCompare req = some p) :
    (compare_locations dbOk req).1 =
      ⟨200, "Comparison for truck " ++ toString p.truck_id ++ " and warehouse " ++
        toString p.warehouse_id ++ " successful."⟩ := by
  simp only [compare_locations, h]

/-- Concrete instance of `compare_returns_200_unconditionally`, with the
alert write failing (`dbOk = false`). -/
theorem compare_returns_200_unconditionally_witness :
    parseCompare compareReqEx = some comparePayloadEx ∧
    (compare_locations false compareReqEx).1 =
      ⟨200, "Comparison for truck " ++ toString comparePayloadEx.truck_id ++
        " and warehouse " ++ toString comparePayloadEx.warehouse_id ++ " successful."⟩ :=
  ⟨rfl, compare_returns_200_unconditionally false compareReqEx comparePayloadEx rfl⟩

/-- The attempted comparison calls of `calculate_truck_data` are exactly one
per insert-kind event per warehouse row, in order, for every outcome function
`callOk` of the outbound calls. -/
lemma calculate_truck_data_pairs (callOk : ComparePayload → Bool)
    (queryResult : Except String (List WarehouseRow)) (trucks : List ChangeEvent) :
    (calculate_truck_data callOk queryResult trucks).map Prod.fst =
      (trucks.filter fun t => t.Operation == 0).flatMap fun t =>
        (fetch_warehouses queryResult).map (truckWarehousePayload t) := by
  induction trucks with
  | nil => simp [calculate_truck_data]
  | cons t ts ih =>
    by_cases ht : t.Operation = 0 <;>
      simp_all [calculate_truck_data, List.filter_cons, compare_truck_warehouse_location,
        Function.comp]

/-- C3: the change handler evaluates exactly one pair per insert-kind event
per warehouse (non-inserts discarded, no early exit, no deduplication), each
pair independent of the outbound calls' outcomes; a batch of one insert-kind
and one other event against two warehouses yields exactly the two pairs of
the insert. -/
theorem change_handler_pairs (callOk : ComparePayload → Bool)
    (w1 w2 : WarehouseRow) (e1 e2 : ChangeEvent)
    (h1 : e1.Operation = 0) (h2 : e2.Operation ≠ 0) :
    (calculate_truck_data callOk (.ok [w1, w2]) [e1, e2]).map Prod.fst =
      [truckWarehousePayload e1 w1, truckWarehousePayload e1 w2] ∧
    ∀ (queryResult : Except String (List WarehouseRow)) (trucks : List ChangeEvent),
      (calculate_truck_data callOk queryResult trucks).map Prod.fst =
        (trucks.filter fun t => t.Operation == 0).flatMap fun t =>
          (fetch_warehouses queryResult).map (truckWarehousePayload t) := by
  refine ⟨?_, calculate_truck_data_pairs callOk⟩
  rw [calculate_truck_data_pairs]
  simp [List.filter_cons, h1, h2, fetch_warehouses]

/-- Concrete instance of `change_handler_pairs`, with every outbound call
failing (`callOk` constantly false): both pairs are still attempted. -/
theorem change_handler_pairs_witness :
    ((⟨0, ⟨9, 1, 2⟩⟩ : ChangeEvent).Operation = 0) ∧
    ((⟨1, ⟨8, 3, 4⟩⟩ : ChangeEvent).Operation ≠ 0) ∧
    (calculate_truck_data (fun _ => false)
        (.ok [⟨21, "A", 5, 6⟩, ⟨22, "B", 7, 8⟩])
        [⟨0, ⟨9, 1, 2⟩⟩, ⟨1, ⟨8, 3, 4⟩⟩]).map Prod.fst =
      [truckWarehousePayload ⟨0, ⟨9, 1, 2⟩⟩ ⟨21, "A", 5, 6⟩,
        truckWarehousePayload ⟨0, ⟨9, 1, 2⟩⟩ ⟨22, "B", 7, 8⟩] :=
  ⟨rfl, by decide,
    (change_handler_pairs (fun _ => false) ⟨21, "A", 5, 6⟩ ⟨22, "B", 7, 8⟩
      ⟨0, ⟨9, 1, 2⟩⟩ ⟨1, ⟨8, 3, 4⟩⟩ rfl (by decide)).1⟩

/-- C8: when fetching the warehouses fails, the change handler performs no
comparisons at all for the batch and completes normally (an empty result,
not an error). -/
theorem change_handler_noop_on_fetch_failure (callOk : ComparePayload → Bool)
    (err : String) (trucks : List ChangeEvent) :
    calculate_truck_data callOk (.error err) trucks = [] := by
  induction trucks with
  | nil => simp [calculate_truck_data]
  | cons t ts ih =>
    by_cases ht : t.Operation = 0 <;>
      simp_all [calculate_truck_data, fetch_warehouses]

/-- C7: when every field of an ingestion request parses but some parsed
value is falsy (id `0`, coordinate `0.0`, empty timestamp), the endpoint
responds `400` reporting a missing parameter and issues no database insert. -/
theorem upload_rejects_falsy_parsed_values (isoOk : String → Bool) (dbOk : Bool)
    (req : UploadReq) (p : UploadParsed) (hp : parseUpload isoOk req = some p)
    (hfalsy : p.truck_id = 0 ∨ p.latitude = 0 ∨ p.longitude = 0 ∨ p.timestamp = "") :
    upload_truck_data isoOk dbOk req =
      (⟨400, "Missing one or more required parameters."⟩, []) := by
  have hT : allTruthy p = false := by
    simp only [allTruthy]
    rcases hfalsy with h | h | h | h <;> simp [h]
  simp [upload_truck_data, hp, hT]

/-- Concrete instance of `upload_rejects_falsy_parsed_values` at
`truck_id = 0`. -/
theorem upload_rejects_falsy_parsed_values_witness :
    parseUpload isoOkEx uploadReqZeroId = some uploadParsedZeroId ∧
    uploadParsedZeroId.truck_id = 0 ∧
    upload_truck_data isoOkEx true uploadReqZeroId =
      (⟨400, "Missing one or more required parameters."⟩, []) :=
  ⟨rfl, rfl,
    upload_rejects_falsy_parsed_values isoOkEx true uploadReqZeroId uploadParsedZeroId
      rfl (Or.inl rfl)⟩

/-- C9 counterexample: a request whose four fields are all present and parse
to their stated types (`truck_id = 0`), with the store accepting writes,
still gets a `400` response rather than the claimed `200`. -/
theorem upload_200_claim_counterexample :
    parseUpload isoOkEx uploadReqZeroId = some uploadParsedZeroId ∧
    upload_truck_data isoOkEx true uploadReqZeroId =
      (⟨400, "Missing one or more required parameters."⟩, []) :=
  ⟨rfl, rfl⟩

/-- C9 amended: the ingestion endpoint returns `200` with confirmation text
and issues the insert when all four fields parse to their stated types, all
parsed values are truthy, and the store accepts the row; `400` when a field
is missing, of the wrong type, or the timestamp is unparsable; `400` also
when every field parses but some parsed value is falsy; `500` when
validation passes but the storage write fails. -/
theorem upload_contract_amended (isoOk : String → Bool) (dbOk : Bool)
    (req : UploadReq) (p : UploadParsed) :
    (parseUpload isoOk req = some p → allTruthy p = true → dbOk = true →
      upload_truck_data isoOk dbOk req =
        (⟨200, "Data for TruckID " ++ toString p.truck_id ++ " inserted successfully."⟩,
          [.insertLocation p.truck_id p.latitude p.longitude p.timestamp])) ∧
    (parseUpload isoOk req = none →
      upload_truck_data isoOk dbOk req =
        (⟨400, "Invalid data format. Please check your input."⟩, [])) ∧
    (parseUpload isoOk req = some p → allTruthy p = false →
      upload_truck_data isoOk dbOk req =
        (⟨400, "Missing one or more required parameters."⟩, [])) ∧
    (parseUpload isoOk req = some p → allTruthy p = true → dbOk = false →
      (upload_truck_data isoOk dbOk req).1 =
        ⟨500, "Database error occurred. Please try again later."⟩) := by
  refine ⟨?_, ?_, ?_, ?_⟩ <;> intros <;> simp_all [upload_truck_data]

/-- Concrete instance of `upload_contract_amended`: the example payload of
the spec is accepted with a `200` confirmation and one insert. -/
theorem upload_contract_amended_witness :
    parseUpload isoOkEx uploadReqEx = some uploadParsedEx ∧
    allTruthy uploadParsedEx = true ∧
    upload_truck_data isoOkEx true uploadReqEx =
      (⟨200, "Data for TruckID " ++ toString uploadParsedEx.truck_id ++
          " inserted successfully."⟩,
        [.insertLocation uploadParsedEx.truck_id uploadParsedEx.latitude
          uploadParsedEx.longitude uploadParsedEx.timestamp]) :=
  ⟨rfl, by norm_num [allTruthy, uploadParsedEx, bne_iff_ne]; decide,
    (upload_contract_amended isoOkEx true uploadReqEx uploadParsedEx).1
      rfl (by norm_num [allTruthy, uploadParsedEx, bne_iff_ne]; decide) rfl⟩

/-- C10: every `400` response of the ingestion endpoint comes with an empty
trace of database operations: no row was written. -/
theorem upload_400_implies_no_db_ops (isoOk : String → Bool) (dbOk : Bool)
    (req : UploadReq) (h : (upload_truck_data isoOk dbOk req).1.status = 400) :
    (upload_truck_data isoOk dbOk req).2 = [] := by
  rcases hp : parseUpload isoOk req with _ | p
  · simp [upload_truck_data, hp]
  · by_cases ht : allTruthy p
    · cases dbOk <;> simp [upload_truck_data, hp, ht] at h
    · simp [upload_truck_data, hp, ht]

/-- Concrete instance of `upload_400_implies_no_db_ops` at a request with
`longitude` missing. -/
theorem upload_400_implies_no_db_ops_witness :
    (upload_truck_data isoOkEx true uploadReqMissingLon).1.status = 400 ∧
    (upload_truck_data isoOkEx true uploadReqMissingLon).2 = [] :=
  ⟨rfl, upload_400_implies_no_db_ops isoOkEx true uploadReqMissingLon rfl⟩

end FunctionApp
